import Mathlib

/-!
Shallow embedding of the deletion reconciliation subsystem of the
document-api service: `deletion_queue.py` (the `DeletionQueue` class) and
`index_status_worker.py` (the `IndexStatusWorker` class).

Timestamps are modelled as integers (seconds).  The durable queue table is a
`List Entry`; a SQL `UPDATE ... WHERE id = $1` is a map over the list and a
`DELETE ... WHERE id = $1` is a filter, which coincides with the database
semantics because `id` is a primary key (unique).  The Vertex AI gateway call
`delete_document` is modelled by an oracle assigning to each processed entry
its outcome: a success, a failure result `(False, message)`, or a raised
exception with message `str(e)`.
-/

namespace DocApi

/-- Python's substring test `needle in haystack`, specialised to the prefix
check: does `hay` start with `needle`? -/
def listStartsWith [BEq α] : List α → List α → Bool
  | [], _ => true
  | _ :: _, [] => false
  | n :: ns, h :: hs => n == h && listStartsWith ns hs

/-- Python's contiguous substring test `needle in haystack` on raw
character lists. -/
def listContains [BEq α] (needle : List α) : List α → Bool
  | [] => listStartsWith needle []
  | h :: hs => listStartsWith needle (h :: hs) || listContains needle hs

/-- `sub in hay` on Python strings. -/
def strContains (hay sub : String) : Bool :=
  listContains sub.data hay.data

/-- `s.lower()` (the messages matched against are ASCII). -/
def lowerStr (s : String) : String :=
  ⟨s.data.map Char.toLower⟩

/-- `"404" in message or "does not exist" in message.lower()` — the
NotFound test in `DeletionQueue._attempt_deletion` (line 159). -/
def isNotFoundMsg (message : String) : Bool :=
  strContains message "404" || strContains (lowerStr message) "does not exist"

/-- `"404" in str(e) or "not found" in str(e).lower()` — the
operation-not-found test in `IndexStatusWorker.check_operation_status`
(line 59). -/
def opNotFoundMsg (message : String) : Bool :=
  strContains message "404" || strContains (lowerStr message) "not found"

/-- `deletion_queue.status`: `'pending'` or `'failed'` (the only two values
the code ever writes; the column default is `'pending'`). -/
inductive Status where
  | pending
  | failed
deriving DecidableEq

/-- One row of the `deletion_queue` table (schema in
`DeletionQueue.initialize_schema`). -/
structure Entry where
  id : Nat
  vertex_ai_doc_id : String
  user_id : String
  original_filename : Option String
  attempt_count : Nat
  max_attempts : Nat
  next_retry_at : Int
  created_at : Int
  last_error : Option String
  status : Status
deriving DecidableEq

/-- Outcome of one call to `vertex_ai_importer.delete_document`: success
`(True, _)`, failure `(False, message)`, or a raised exception. -/
inductive DeleteResult where
  | ok
  | err (message : String)
  | exn (message : String)

/-- The string returned by `DeletionQueue._attempt_deletion`:
`"succeeded"`, `"failed"`, or `"skipped"`. -/
inductive Outcome where
  | succeeded
  | failed
  | skipped
deriving DecidableEq

/-- The single SQL statement `_attempt_deletion` commits for one entry:
`_mark_completed` (a row delete) or `_schedule_retry` / `_mark_failed`
(a row update). -/
inductive StoreAction where
  | deleteRow
  | update (e : Entry)
deriving DecidableEq

/-- The fixed diagnostic `_attempt_deletion` passes to `_mark_failed` when
max retries are reached on a 404 (line 165). -/
def maxRetriesMsg : String :=
  "Max retries reached. Document never appeared in Vertex AI."

/-- The backoff schedule of `DeletionQueue._schedule_retry` (lines 206-216).
Called only with `attempt_count ≥ 1` (a persisted non-negative counter plus
one). -/
def retryDelay (attempt_count : Nat) : Nat :=
  if attempt_count = 1 then 120
  else if attempt_count = 2 then 180
  else if attempt_count = 3 then 300
  else if attempt_count = 4 then 600
  else min (900 * 2 ^ (attempt_count - 5)) 28800

/-- The row update of `_schedule_retry`: sets `attempt_count`,
`next_retry_at = NOW() + delay`, `last_error`. -/
def scheduleRetryEntry (e : Entry) (attempt_count : Nat) (now : Int)
    (error_msg : String) : Entry :=
  { e with
    attempt_count := attempt_count
    next_retry_at := now + (retryDelay attempt_count : Int)
    last_error := some error_msg }

/-- The row update of `_mark_failed`: sets `status = 'failed'`,
`attempt_count`, `last_error`. -/
def markFailedEntry (e : Entry) (attempt_count : Nat) (error_msg : String) :
    Entry :=
  { e with
    status := Status.failed
    attempt_count := attempt_count
    last_error := some error_msg }

/-- `DeletionQueue._attempt_deletion` for one queue record, given the
gateway outcome `res`: returns the result string and the store transition it
commits. Mirrors lines 139-198 of `deletion_queue.py`. -/
def attemptDeletion (res : DeleteResult) (e : Entry) (now : Int) :
    Outcome × StoreAction :=
  let attempt_count := e.attempt_count + 1
  match res with
  | DeleteResult.ok => (Outcome.succeeded, StoreAction.deleteRow)
  | DeleteResult.err message =>
    if isNotFoundMsg message then
      if attempt_count ≥ e.max_attempts then
        (Outcome.failed,
         StoreAction.update (markFailedEntry e attempt_count maxRetriesMsg))
      else
        (Outcome.skipped,
         StoreAction.update (scheduleRetryEntry e attempt_count now message))
    else
      -- "Other error, retry": no max_attempts check on this branch.
      (Outcome.skipped,
       StoreAction.update (scheduleRetryEntry e attempt_count now message))
  | DeleteResult.exn error_msg =>
    if attempt_count ≥ e.max_attempts then
      (Outcome.failed,
       StoreAction.update (markFailedEntry e attempt_count error_msg))
    else
      (Outcome.skipped,
       StoreAction.update (scheduleRetryEntry e attempt_count now error_msg))

/-- The `WHERE status = 'pending' AND next_retry_at <= NOW()` clause of
`process_pending_deletions`. -/
def isDue (now : Int) (e : Entry) : Bool :=
  e.status == Status.pending && decide (e.next_retry_at ≤ now)

/-- Insertion step for `ORDER BY next_retry_at` (ascending, stable). -/
def insertByRetryAt (e : Entry) : List Entry → List Entry
  | [] => [e]
  | x :: xs =>
    if e.next_retry_at ≤ x.next_retry_at then e :: x :: xs
    else x :: insertByRetryAt e xs

/-- `ORDER BY next_retry_at` as an insertion sort. -/
def sortByRetryAt : List Entry → List Entry
  | [] => []
  | x :: xs => insertByRetryAt x (sortByRetryAt xs)

/-- The SELECT of `process_pending_deletions` (lines 95-103): pending rows
due for retry, ordered by `next_retry_at`, `LIMIT 100`. -/
def dueEntries (store : List Entry) (now : Int) : List Entry :=
  (sortByRetryAt (store.filter (isDue now))).take 100

/-- Applying one committed statement to the table: `DELETE ... WHERE id`
or `UPDATE ... WHERE id` (id is the primary key). -/
def applyAction (store : List Entry) (queue_id : Nat) :
    StoreAction → List Entry
  | StoreAction.deleteRow => store.filter (fun x => x.id != queue_id)
  | StoreAction.update e => store.map (fun x => if x.id == queue_id then e else x)

/-- The `{succeeded, failed, skipped}` dictionary returned by
`process_pending_deletions`. -/
structure TickCounts where
  succeeded : Nat
  failed : Nat
  skipped : Nat
deriving DecidableEq

/-- The counter increments in the processing loop (lines 112-119). -/
def bump (c : TickCounts) : Outcome → TickCounts
  | Outcome.succeeded => { c with succeeded := c.succeeded + 1 }
  | Outcome.failed => { c with failed := c.failed + 1 }
  | Outcome.skipped => { c with skipped := c.skipped + 1 }

/-- One iteration of the loop body of `process_pending_deletions`: attempt
the deletion of snapshot record `e`, bump the matching counter, commit the
state transition. -/
def stepEntry (gw : Entry → DeleteResult) (now : Int)
    (acc : TickCounts × List Entry) (e : Entry) : TickCounts × List Entry :=
  let r := attemptDeletion (gw e) e now
  (bump acc.1 r.1, applyAction acc.2 e.id r.2)

/-- `DeletionQueue.process_pending_deletions`: select the due batch, process
each entry in order, return the counts and the resulting table. -/
def processPendingDeletions (gw : Entry → DeleteResult) (store : List Entry)
    (now : Int) : TickCounts × List Entry :=
  (dueEntries store now).foldl (stepEntry gw now) (⟨0, 0, 0⟩, store)

/-- `documents.index_status`: the four values the system writes. -/
inductive IndexStatus where
  | pending
  | indexing
  | indexed
  | failed
deriving DecidableEq

/-- One `documents` row, restricted to the fields
`IndexStatusWorker.process_indexing_documents` reads and writes. -/
structure Document where
  id : Nat
  import_operation_id : Option String
  index_status : IndexStatus
  index_completed_at : Option Int
  original_filename : String
  upload_date : Option Int
deriving DecidableEq

/-- What polling a Vertex AI operation yields in
`IndexStatusWorker.check_operation_status`: the operation object (done with
an optional error message, or not done), or `get_operation` raising.
`completed (some m)` stands for `operation.done` with a truthy
`operation.error` whose `.message` is `m` (the code treats an empty message
as no error). -/
inductive OpPoll where
  | completed (error_message : Option String)
  | running
  | pollError (message : String)

/-- `IndexStatusWorker.check_operation_status` (lines 37-67): maps the poll
outcome to the status string `"indexing"`, `"indexed"`, or `"failed"`.  A
poll exception whose message mentions 404/not-found is treated as completed;
any other exception re-raises into the outer handler, which returns
`"indexing"`. -/
def checkOperationStatus (p : OpPoll) : String :=
  match p with
  | OpPoll.completed error_message =>
    match error_message with
    | some m => if m = "" then "indexed" else "failed"
    | none => "indexed"
  | OpPoll.running => "indexing"
  | OpPoll.pollError m => if opNotFoundMsg m then "indexed" else "indexing"

/-- `Database.update_document_index_status` (database.py lines 669-694):
`UPDATE documents SET index_status = $1 [, index_completed_at = $2] WHERE
id = $3`; `index_completed_at` is written only when a truthy timestamp is
passed. -/
def update_document_index_status (docs : List Document) (document_id : Nat)
    (index_status : IndexStatus) (index_completed_at : Option Int) :
    List Document :=
  docs.map (fun d =>
    if d.id == document_id then
      match index_completed_at with
      | some t => { d with index_status := index_status, index_completed_at := some t }
      | none => { d with index_status := index_status }
    else d)

/-- `ORDER BY upload_date DESC` with Postgres `NULLS FIRST` default:
`a` sorts no later than `b`. -/
def uploadDesc (a b : Document) : Bool :=
  match a.upload_date, b.upload_date with
  | none, _ => true
  | some _, none => false
  | some x, some y => decide (y ≤ x)

/-- Insertion step for `ORDER BY upload_date DESC` (stable). -/
def insertByUpload (d : Document) : List Document → List Document
  | [] => [d]
  | x :: xs => if uploadDesc d x then d :: x :: xs else x :: insertByUpload d xs

/-- `ORDER BY upload_date DESC` as an insertion sort. -/
def sortByUpload : List Document → List Document
  | [] => []
  | x :: xs => insertByUpload x (sortByUpload xs)

/-- `Database.get_documents_by_index_status` (database.py lines 713-739):
rows with the given status, ordered by `upload_date DESC`, `LIMIT 100`
(the default limit the worker uses). -/
def get_documents_by_index_status (docs : List Document)
    (index_status : IndexStatus) : List Document :=
  (sortByUpload (docs.filter (fun d => d.index_status == index_status))).take 100

/-- The `{completed, failed, still_indexing}` dictionary returned by
`process_indexing_documents`. -/
structure ReconcileCounts where
  completed : Nat
  failed : Nat
  still_indexing : Nat
deriving DecidableEq

/-- Python falsiness of `doc.get("import_operation_id")`: absent or empty
string. -/
def falsyStr : Option String → Bool
  | none => true
  | some s => s == ""

/-- One iteration of the loop body of
`IndexStatusWorker.process_indexing_documents` (lines 83-118) for document
`doc`, against the accumulated counts and table.  With no operation id, the
time-based fallback applies (strictly more than 600 seconds since
`upload_date`, and a falsy `upload_date` means no action); otherwise the
operation is polled and the status string dispatched on. -/
def stepDoc (poll : String → OpPoll) (now : Int)
    (acc : ReconcileCounts × List Document) (doc : Document) :
    ReconcileCounts × List Document :=
  if falsyStr doc.import_operation_id then
    match doc.upload_date with
    | some upload_time =>
      if 600 < now - upload_time then
        ({ acc.1 with completed := acc.1.completed + 1 },
         update_document_index_status acc.2 doc.id IndexStatus.indexed (some now))
      else acc
    | none => acc
  else
    let status := checkOperationStatus (poll (doc.import_operation_id.getD ""))
    if status == "indexed" then
      ({ acc.1 with completed := acc.1.completed + 1 },
       update_document_index_status acc.2 doc.id IndexStatus.indexed (some now))
    else if status == "failed" then
      ({ acc.1 with failed := acc.1.failed + 1 },
       update_document_index_status acc.2 doc.id IndexStatus.failed none)
    else
      ({ acc.1 with still_indexing := acc.1.still_indexing + 1 }, acc.2)

/-- `IndexStatusWorker.process_indexing_documents`: fetch the documents with
`index_status = 'indexing'`, process each, return the counts and the
resulting table. -/
def process_indexing_documents (poll : String → OpPoll) (docs : List Document)
    (now : Int) : ReconcileCounts × List Document :=
  (get_documents_by_index_status docs IndexStatus.indexing).foldl
    (stepDoc poll now) (⟨0, 0, 0⟩, docs)

/-! ### Concrete fixtures

Sample rows, gateways and pollers used to evaluate the development on
closed inputs. -/

/-- A freshly enqueued entry with `max_attempts = 1` (column defaults except
for the attempt policy). -/
def cexEntry : Entry :=
  ⟨0, "doc-1", "user-1", none, 0, 1, 0, 0, none, Status.pending⟩

/-- A gateway whose delete always fails with a non-NotFound message. -/
def cexGw : Entry → DeleteResult := fun _ => DeleteResult.err "connection refused"

/-- A freshly enqueued entry with the default `max_attempts = 10`. -/
def eW1 : Entry :=
  ⟨0, "doc-w1", "user-1", none, 0, 10, 0, 0, none, Status.pending⟩

/-- A gateway whose delete always fails with a NotFound message. -/
def gwW1 : Entry → DeleteResult := fun _ => DeleteResult.err "404 resource not found"

/-- An entry one attempt away from exhausting `max_attempts = 5`. -/
def eW2 : Entry :=
  ⟨0, "doc-w2", "user-1", none, 4, 5, 0, 0, none, Status.pending⟩

/-- A freshly enqueued entry with `max_attempts = 5`. -/
def eW2low : Entry :=
  ⟨1, "doc-w2", "user-1", none, 0, 5, 0, 0, none, Status.pending⟩

/-- A freshly enqueued entry with `max_attempts = 1` and its own target. -/
def eW4 : Entry :=
  ⟨0, "doc-w4", "user-1", none, 0, 1, 0, 0, none, Status.pending⟩

/-- Two distinct queue entries targeting the same external document. -/
def eW5 : Entry :=
  ⟨0, "doc-dup", "user-1", none, 0, 10, 0, 0, none, Status.pending⟩

/-- A duplicate enqueue for the target of `eW5`, under a different queue id. -/
def eW5dup : Entry :=
  ⟨1, "doc-dup", "user-1", none, 2, 10, 50, 0, some "earlier", Status.pending⟩

/-- A permanently failed entry left in the store for operator visibility. -/
def eW6failed : Entry :=
  ⟨0, "doc-w6", "user-1", none, 10, 10, 0, 0, some "gone", Status.failed⟩

/-- A pending entry sharing the store with `eW6failed`. -/
def eW6pending : Entry :=
  ⟨1, "doc-w6b", "user-1", none, 0, 10, 0, 0, none, Status.pending⟩

/-- A document still `indexing` for which no operation handle was
recorded. -/
def dW7 : Document :=
  ⟨0, none, IndexStatus.indexing, none, "report.pdf", some 0⟩

/-- A poller reporting every operation as still running. -/
def pollW : String → OpPoll := fun _ => OpPoll.running

/-- A document `indexing` under the recorded operation handle `"op-1"`. -/
def dW8 : Document :=
  ⟨0, some "op-1", IndexStatus.indexing, none, "report.pdf", some 0⟩

/-- A poller whose `get_operation` raises an operation-not-found error. -/
def pollW8 : String → OpPoll := fun _ => OpPoll.pollError "operation not found"

/-- A poller whose `get_operation` raises a non-NotFound error. -/
def pollW10 : String → OpPoll := fun _ => OpPoll.pollError "deadline exceeded"

/-! ### Supporting lemmas -/

lemma mem_insertByRetryAt {x e : Entry} {l : List Entry} :
    x ∈ insertByRetryAt e l ↔ x = e ∨ x ∈ l := by
  induction l with
  | nil => simp [insertByRetryAt]
  | cons y ys ih =>
    by_cases h : e.next_retry_at ≤ y.next_retry_at
    · simp [insertByRetryAt, h]
    · simp [insertByRetryAt, h, ih]
      tauto

lemma mem_sortByRetryAt {x : Entry} {l : List Entry} :
    x ∈ sortByRetryAt l ↔ x ∈ l := by
  induction l with
  | nil => simp [sortByRetryAt]
  | cons y ys ih => simp [sortByRetryAt, mem_insertByRetryAt, ih]

lemma mem_take_of_mem {α : Type _} {x : α} {l : List α} {n : Nat}
    (h : x ∈ l.take n) : x ∈ l :=
  (List.take_sublist n l).subset h

/-- Every entry selected by the due query is a pending row of the store that
is due at `now`. -/
lemma mem_dueEntries {e : Entry} {store : List Entry} {now : Int}
    (h : e ∈ dueEntries store now) :
    e ∈ store ∧ e.status = Status.pending ∧ e.next_retry_at ≤ now := by
  have h1 : e ∈ store.filter (isDue now) := mem_sortByRetryAt.mp (mem_take_of_mem h)
  have h2 := List.mem_filter.mp h1
  refine ⟨h2.1, ?_, ?_⟩
  · have := h2.2
    simp [isDue] at this
    exact this.1
  · have := h2.2
    simp [isDue] at this
    exact this.2

/-- A committed statement targeting a different primary key leaves a row
untouched. -/
lemma mem_applyAction_of_ne {x : Entry} {st : List Entry} {qid : Nat}
    (a : StoreAction) (hx : x ∈ st) (hne : x.id ≠ qid) :
    x ∈ applyAction st qid a := by
  cases a with
  | deleteRow =>
    exact List.mem_filter.mpr ⟨hx, by simpa using hne⟩
  | update e =>
    refine List.mem_map.mpr ⟨x, hx, ?_⟩
    simp [hne]

/-- Every row of the table after a committed statement is either an old row
or the updated row. -/
lemma mem_applyAction {x : Entry} {st : List Entry} {qid : Nat} {a : StoreAction}
    (h : x ∈ applyAction st qid a) :
    x ∈ st ∨ ∃ e, a = StoreAction.update e ∧ x = e := by
  cases a with
  | deleteRow =>
    exact Or.inl (List.mem_filter.mp h).1
  | update e =>
    rcases List.mem_map.mp h with ⟨y, hy, hxy⟩
    by_cases hid : y.id == qid
    · right
      exact ⟨e, rfl, by simpa [hid] using hxy.symm⟩
    · left
      simp only [Bool.not_eq_true] at hid
      rw [hid] at hxy
      simp only [Bool.false_eq_true, if_false] at hxy
      exact hxy ▸ hy

/-- Primary-key uniqueness: two rows of the store with the same `id`
coincide. -/
lemma eq_of_mem_of_id_eq {store : List Entry}
    (hnd : (store.map Entry.id).Nodup) :
    ∀ a ∈ store, ∀ b ∈ store, a.id = b.id → a = b := by
  induction store with
  | nil => intro a ha; simp at ha
  | cons y l ih =>
    simp only [List.map_cons, List.nodup_cons] at hnd
    intro a ha b hb hid
    rcases List.mem_cons.mp ha with rfl | ha' <;>
      rcases List.mem_cons.mp hb with rfl | hb'
    · rfl
    · exact absurd (hid ▸ List.mem_map_of_mem Entry.id hb') hnd.1
    · exact absurd (hid ▸ List.mem_map_of_mem Entry.id ha') hnd.1
    · exact ih hnd.2 a ha' b hb' hid

/-- A row whose id is targeted by no processed entry survives the whole
loop unchanged. -/
lemma mem_foldl_stepEntry_of_ne (gw : Entry → DeleteResult) (now : Int)
    (x : Entry) :
    ∀ (due : List Entry) (c : TickCounts) (st : List Entry),
      x ∈ st → (∀ e ∈ due, e.id ≠ x.id) →
      x ∈ (due.foldl (stepEntry gw now) (c, st)).2 := by
  intro due
  induction due with
  | nil => intro c st hx _; simpa using hx
  | cons e es ih =>
    intro c st hx hne
    have he : e.id ≠ x.id := hne e (List.mem_cons_self e es)
    have hx' : x ∈ (stepEntry gw now (c, st) e).2 :=
      mem_applyAction_of_ne _ hx (fun h => he h.symm)
    simpa [List.foldl_cons] using
      ih (stepEntry gw now (c, st) e).1 (stepEntry gw now (c, st) e).2 hx'
        (fun e' he' => hne e' (List.mem_cons_of_mem e he'))

/-- Each loop iteration bumps exactly one of the three counters. -/
lemma bump_total (c : TickCounts) (o : Outcome) :
    (bump c o).succeeded + (bump c o).failed + (bump c o).skipped =
      c.succeeded + c.failed + c.skipped + 1 := by
  cases o <;> simp [bump] <;> omega

/-- One loop iteration grows the counter total by exactly one. -/
lemma stepEntry_total (gw : Entry → DeleteResult) (now : Int) (c : TickCounts)
    (st : List Entry) (e : Entry) :
    (stepEntry gw now (c, st) e).1.succeeded +
      (stepEntry gw now (c, st) e).1.failed +
      (stepEntry gw now (c, st) e).1.skipped =
    c.succeeded + c.failed + c.skipped + 1 := by
  simp only [stepEntry]
  exact bump_total c _

/-- The three counters together grow by exactly the number of entries
processed. -/
lemma foldl_stepEntry_total (gw : Entry → DeleteResult) (now : Int) :
    ∀ (due : List Entry) (c : TickCounts) (st : List Entry),
      (due.foldl (stepEntry gw now) (c, st)).1.succeeded +
        (due.foldl (stepEntry gw now) (c, st)).1.failed +
        (due.foldl (stepEntry gw now) (c, st)).1.skipped =
      c.succeeded + c.failed + c.skipped + due.length := by
  intro due
  induction due with
  | nil => intro c st; simp
  | cons e es ih =>
    intro c st
    have h1 := ih (stepEntry gw now (c, st) e).1 (stepEntry gw now (c, st) e).2
    rw [Prod.mk.eta] at h1
    have h2 := stepEntry_total gw now c st e
    simp only [List.foldl_cons, List.length_cons]
    omega

/-- When the gateway outcome is a success, a NotFound failure result, or an
exception, any row update committed by the deletion cycle keeps a pending
row strictly below `max_attempts`. -/
lemma attemptDeletion_update_inv {r : DeleteResult} {e e' : Entry} {now : Int}
    (hr : ∀ m, r = DeleteResult.err m → isNotFoundMsg m = true)
    (h : (attemptDeletion r e now).2 = StoreAction.update e') :
    e'.status = Status.pending → e'.attempt_count < e'.max_attempts := by
  intro hp
  cases r with
  | ok => simp [attemptDeletion] at h
  | err m =>
    have hm := hr m rfl
    simp only [attemptDeletion, hm, if_true] at h
    split at h
    case isTrue hc =>
      simp only [StoreAction.update.injEq] at h
      rw [← h] at hp
      simp [markFailedEntry] at hp
    case isFalse hc =>
      simp only [StoreAction.update.injEq] at h
      rw [← h] at hp ⊢
      simp only [scheduleRetryEntry]
      omega
  | exn m =>
    simp only [attemptDeletion] at h
    split at h
    case isTrue hc =>
      simp only [StoreAction.update.injEq] at h
      rw [← h] at hp
      simp [markFailedEntry] at hp
    case isFalse hc =>
      simp only [StoreAction.update.injEq] at h
      rw [← h] at hp ⊢
      simp only [scheduleRetryEntry]
      omega

/-- The loop preserves the pending-below-max invariant of the whole table
when every gateway failure result carries a NotFound message. -/
lemma foldl_stepEntry_inv (gw : Entry → DeleteResult) (now : Int)
    (hgw : ∀ e m, gw e = DeleteResult.err m → isNotFoundMsg m = true) :
    ∀ (due : List Entry) (c : TickCounts) (st : List Entry),
      (∀ x ∈ st, x.status = Status.pending → x.attempt_count < x.max_attempts) →
      ∀ x ∈ (due.foldl (stepEntry gw now) (c, st)).2,
        x.status = Status.pending → x.attempt_count < x.max_attempts := by
  intro due
  induction due with
  | nil => intro c st hst; simpa using hst
  | cons e es ih =>
    intro c st hst
    have hstep : ∀ x ∈ (stepEntry gw now (c, st) e).2,
        x.status = Status.pending → x.attempt_count < x.max_attempts := by
      intro x hx
      simp only [stepEntry] at hx
      rcases mem_applyAction hx with hold | ⟨e', he', rfl⟩
      · exact hst x hold
      · exact attemptDeletion_update_inv (fun m hm => hgw e m hm) he'
    have h1 := ih (stepEntry gw now (c, st) e).1 (stepEntry gw now (c, st) e).2 hstep
    rw [Prod.mk.eta] at h1
    simpa [List.foldl_cons] using h1

/-- A tick over a one-row table whose row is due reduces to the single loop
iteration for that row. -/
lemma processPendingDeletions_singleton (gw : Entry → DeleteResult)
    (e : Entry) (now : Int) (h : isDue now e = true) :
    processPendingDeletions gw [e] now = stepEntry gw now (⟨0, 0, 0⟩, [e]) e := by
  simp [processPendingDeletions, dueEntries, sortByRetryAt, insertByRetryAt,
    List.filter_cons, h, List.take_succ_cons]

/-- A reconciler tick over a one-row table whose row is `indexing` reduces
to the single loop iteration for that row. -/
lemma process_indexing_documents_singleton (poll : String → OpPoll)
    (d : Document) (now : Int) (h : d.index_status = IndexStatus.indexing) :
    process_indexing_documents poll [d] now = stepDoc poll now (⟨0, 0, 0⟩, [d]) d := by
  simp [process_indexing_documents, get_documents_by_index_status, sortByUpload,
    insertByUpload, List.filter_cons, h, List.take_succ_cons]

/-! ### Claims about the Deletion Retry Engine -/

/-- C1, counterexample: starting from a valid store holding one freshly
enqueued entry with `max_attempts = 1`, a gateway delete that fails with a
non-NotFound message (`"connection refused"`) leaves the entry `pending`
with `attempt_count = max_attempts` after one tick, and `pending` with
`attempt_count > max_attempts` after a second tick: the claimed invariant
`pending → attempt_count < max_attempts` fails, and `attempt_count` exceeds
`max_attempts` without a transition to `failed`. -/
theorem C1_counterexample :
    (cexEntry.status = Status.pending ∧
      cexEntry.attempt_count < cexEntry.max_attempts) ∧
    (∃ x ∈ (processPendingDeletions cexGw [cexEntry] 0).2,
      x.status = Status.pending ∧ ¬ x.attempt_count < x.max_attempts) ∧
    (∃ x ∈ (processPendingDeletions cexGw
        (processPendingDeletions cexGw [cexEntry] 0).2 120).2,
      x.status ≠ Status.failed ∧ x.max_attempts < x.attempt_count) := by
  decide

/-- C1, amended: the invariant holds provided every gateway failure result
delivered during processing carries a NotFound/does-not-exist message (the
success, NotFound and raised-exception paths all respect `max_attempts`;
only the non-NotFound failure-result path schedules a retry without the
check).  Then after any tick every pending row has
`attempt_count < max_attempts`, and no row's `attempt_count` exceeds
`max_attempts` before it is `failed`. -/
theorem C1_pending_below_max_amended (gw : Entry → DeleteResult)
    (store : List Entry) (now : Int)
    (hgw : ∀ e m, gw e = DeleteResult.err m → isNotFoundMsg m = true)
    (hstore : ∀ x ∈ store,
      x.status = Status.pending → x.attempt_count < x.max_attempts) :
    ∀ x ∈ (processPendingDeletions gw store now).2,
      (x.status = Status.pending → x.attempt_count < x.max_attempts) ∧
      (x.status ≠ Status.failed → x.attempt_count ≤ x.max_attempts) := by
  intro x hx
  have h1 := foldl_stepEntry_inv gw now hgw (dueEntries store now) ⟨0, 0, 0⟩
    store hstore x (by rw [processPendingDeletions] at hx; exact hx)
  refine ⟨h1, ?_⟩
  intro hnf
  cases hs : x.status with
  | pending => exact Nat.le_of_lt (h1 hs)
  | failed => exact absurd hs hnf

/-- C1, witness: with a gateway that always answers with a NotFound message,
one tick over a fresh entry (`attempt_count = 0`, `max_attempts = 10`)
leaves a pending row whose attempt count is still below `max_attempts`. -/
theorem C1_pending_below_max_amended_witness :
    (scheduleRetryEntry eW1 1 0 "404 resource not found").attempt_count <
      (scheduleRetryEntry eW1 1 0 "404 resource not found").max_attempts :=
  (C1_pending_below_max_amended gwW1 [eW1] 0
    (by
      intro e m h
      simp only [gwW1, DeleteResult.err.injEq] at h
      rw [← h]
      decide)
    (by decide)
    (scheduleRetryEntry eW1 1 0 "404 resource not found") (by decide)).1 (by decide)

/-- C2, counterexample: a gateway failure result with a non-NotFound message
(`"connection refused"`) against an entry whose incremented attempt count
reaches `max_attempts` yields result `"skipped"` and a scheduled retry, not
the claimed transition to `failed`: the non-NotFound failure-result branch
does not apply the NotFound branching. -/
theorem C2_counterexample :
    cexEntry.max_attempts ≤ cexEntry.attempt_count + 1 ∧
    (attemptDeletion (DeleteResult.err "connection refused") cexEntry 0).1 =
      Outcome.skipped ∧
    ¬ (attemptDeletion (DeleteResult.err "connection refused") cexEntry 0).1 =
      Outcome.failed ∧
    (processPendingDeletions cexGw [cexEntry] 0).2 =
      [scheduleRetryEntry cexEntry 1 0 "connection refused"] := by
  decide

/-- C2, amended: only an unexpected exception applies the NotFound-style
branching — `failed` with the exception message as `last_error` once the
incremented attempt count reaches `max_attempts`, a scheduled retry
(result `"skipped"`) otherwise.  A gateway failure result other than
NotFound always schedules a retry with the message as `last_error`,
regardless of `max_attempts`. -/
theorem C2_error_branching_amended (e : Entry) (m : String) (now : Int) :
    (isNotFoundMsg m = false →
      attemptDeletion (DeleteResult.err m) e now =
        (Outcome.skipped,
         StoreAction.update (scheduleRetryEntry e (e.attempt_count + 1) now m))) ∧
    (e.max_attempts ≤ e.attempt_count + 1 →
      attemptDeletion (DeleteResult.exn m) e now =
        (Outcome.failed,
         StoreAction.update (markFailedEntry e (e.attempt_count + 1) m))) ∧
    (e.attempt_count + 1 < e.max_attempts →
      attemptDeletion (DeleteResult.exn m) e now =
        (Outcome.skipped,
         StoreAction.update (scheduleRetryEntry e (e.attempt_count + 1) now m))) := by
  refine ⟨?_, ?_, ?_⟩
  · intro h
    simp [attemptDeletion, h]
  · intro h
    simp [attemptDeletion, ge_iff_le, h]
  · intro h
    simp [attemptDeletion, ge_iff_le, Nat.not_le.mpr h]

/-- C2, witness: the amended branching evaluated on the exhausting attempt
(`attempt_count = 4`, `max_attempts = 5`) of an entry under a plain error
result and under an exception, and on a fresh entry under an exception. -/
theorem C2_error_branching_amended_witness :
    attemptDeletion (DeleteResult.err "500 internal error") eW2 3 =
      (Outcome.skipped,
       StoreAction.update
         (scheduleRetryEntry eW2 (eW2.attempt_count + 1) 3 "500 internal error")) ∧
    attemptDeletion (DeleteResult.exn "boom") eW2 3 =
      (Outcome.failed,
       StoreAction.update (markFailedEntry eW2 (eW2.attempt_count + 1) "boom")) ∧
    attemptDeletion (DeleteResult.exn "boom") eW2low 3 =
      (Outcome.skipped,
       StoreAction.update (scheduleRetryEntry eW2low (eW2low.attempt_count + 1) 3 "boom")) :=
  ⟨(C2_error_branching_amended eW2 "500 internal error" 3).1 (by decide),
   (C2_error_branching_amended eW2 "boom" 3).2.1 (by decide),
   (C2_error_branching_amended eW2low "boom" 3).2.2 (by decide)⟩

/-- C3: the retry delay is 120, 180, 300, 600 seconds for the first four
attempts, `min (900 * 2 ^ (n - 5)) 28800` for every attempt `n ≥ 5`, and is
non-decreasing over attempts 1 through 10. -/
theorem C3_backoff_schedule :
    retryDelay 1 = 120 ∧ retryDelay 2 = 180 ∧ retryDelay 3 = 300 ∧
    retryDelay 4 = 600 ∧
    (∀ n, 5 ≤ n → retryDelay n = min (900 * 2 ^ (n - 5)) 28800) ∧
    (∀ n m, 1 ≤ n → n ≤ m → m ≤ 10 → retryDelay n ≤ retryDelay m) := by
  refine ⟨by decide, by decide, by decide, by decide, ?_, ?_⟩
  · intro n hn
    unfold retryDelay
    rw [if_neg (by omega), if_neg (by omega), if_neg (by omega), if_neg (by omega)]
  · intro n m h1 h2 h3
    have key : ∀ b < 11, ∀ a < 11, 1 ≤ a → a ≤ b → retryDelay a ≤ retryDelay b := by
      decide
    exact key m (by omega) n (by omega) h1 h2

/-- C3, witness: the exponential formula at attempt 7 and monotonicity
between attempts 3 and 7. -/
theorem C3_backoff_schedule_witness :
    retryDelay 7 = min (900 * 2 ^ (7 - 5)) 28800 ∧ retryDelay 3 ≤ retryDelay 7 :=
  ⟨C3_backoff_schedule.2.2.2.2.1 7 (by decide),
   C3_backoff_schedule.2.2.2.2.2 3 7 (by decide) (by decide) (by decide)⟩

/-- C4: a NotFound failure result on an entry whose incremented attempt
count reaches `max_attempts` makes the tick count it `failed` and commit a
row update — the row is retained with `status = 'failed'`, the incremented
attempt count, and the fixed max-retries diagnostic as `last_error`. -/
theorem C4_notfound_exhaustion (e : Entry) (m : String) (now : Int)
    (h1 : isNotFoundMsg m = true)
    (h2 : e.max_attempts ≤ e.attempt_count + 1)
    (h3 : e.status = Status.pending)
    (h4 : e.next_retry_at ≤ now) :
    processPendingDeletions (fun _ => DeleteResult.err m) [e] now =
      (⟨0, 1, 0⟩,
       [{ e with
           status := Status.failed
           attempt_count := e.attempt_count + 1
           last_error := some maxRetriesMsg }]) := by
  have hdue : isDue now e = true := by
    simp [isDue, h3, h4]
  rw [processPendingDeletions_singleton _ _ _ hdue]
  simp [stepEntry, attemptDeletion, h1, ge_iff_le, h2, bump, applyAction,
    markFailedEntry]

/-- C4, witness: the exhaustion scenario — `max_attempts = 1`, a
does-not-exist result on the only attempt — leaves the row `failed` with
`attempt_count = 1` in the store and counts `failed = 1`. -/
theorem C4_notfound_exhaustion_witness :
    processPendingDeletions
        (fun _ => DeleteResult.err "Document with id doc-w4 does not exist.") [eW4] 0 =
      (⟨0, 1, 0⟩,
       [{ eW4 with
           status := Status.failed
           attempt_count := eW4.attempt_count + 1
           last_error := some maxRetriesMsg }]) :=
  C4_notfound_exhaustion eW4 "Document with id doc-w4 does not exist." 0
    (by decide) (by decide) (by decide) (by decide)

/-- C5: a successful gateway delete yields result `"succeeded"` and commits
exactly the removal of the invoked queue id: a row survives the commit if
and only if it was in the store with a different queue id — so duplicate
entries for the same `vertex_ai_doc_id` under other queue ids are untouched.
Over a one-row store, the tick returns `succeeded = 1` and an empty
table. -/
theorem C5_success_removes_one (e : Entry) (st : List Entry) (now : Int) :
    attemptDeletion DeleteResult.ok e now =
      (Outcome.succeeded, StoreAction.deleteRow) ∧
    (∀ x, x ∈ applyAction st e.id StoreAction.deleteRow ↔
      x ∈ st ∧ x.id ≠ e.id) ∧
    (isDue now e = true →
      processPendingDeletions (fun _ => DeleteResult.ok) [e] now =
        (⟨1, 0, 0⟩, [])) := by
  refine ⟨rfl, ?_, ?_⟩
  · intro x
    simp [applyAction, List.mem_filter, bne_iff_ne]
  · intro hdue
    rw [processPendingDeletions_singleton _ _ _ hdue]
    simp [stepEntry, attemptDeletion, bump, applyAction]

/-- C5, witness: deleting `eW5`'s queue id from a store that also holds a
duplicate enqueue for the same target keeps the duplicate, and a tick over
the one-row store `[eW5]` with a succeeding gateway empties it counting one
success. -/
theorem C5_success_removes_one_witness :
    (eW5dup ∈ applyAction [eW5, eW5dup] eW5.id StoreAction.deleteRow ∧
      ¬ eW5 ∈ applyAction [eW5, eW5dup] eW5.id StoreAction.deleteRow) ∧
    processPendingDeletions (fun _ => DeleteResult.ok) [eW5] 0 =
      (⟨1, 0, 0⟩, []) :=
  ⟨⟨((C5_success_removes_one eW5 [eW5, eW5dup] 0).2.1 eW5dup).mpr
      (by refine ⟨by decide, by decide⟩),
    fun h => absurd (((C5_success_removes_one eW5 [eW5, eW5dup] 0).2.1 eW5).mp h).2
      (by decide)⟩,
   (C5_success_removes_one eW5 [eW5] 0).2.2 (by decide)⟩

/-- C6: once a row has `status = 'failed'` it is frozen: the due query only
selects pending rows, every committed statement targets the queue id of a
selected row, and queue ids are unique (primary key), so the failed row
survives any tick literally unchanged. -/
theorem C6_failed_rows_frozen (gw : Entry → DeleteResult) (store : List Entry)
    (now : Int) (x : Entry)
    (hnd : (store.map Entry.id).Nodup)
    (hx : x ∈ store) (hxf : x.status = Status.failed) :
    x ∈ (processPendingDeletions gw store now).2 := by
  rw [processPendingDeletions]
  refine mem_foldl_stepEntry_of_ne gw now x _ _ _ hx ?_
  intro e he hid
  rcases mem_dueEntries he with ⟨hes, hep, _⟩
  have hex : e = x := eq_of_mem_of_id_eq hnd e hes x hx hid
  rw [hex, hxf] at hep
  exact Status.noConfusion hep

/-- C6, witness: a failed row survives a tick that processes a pending row
sharing the store, under a gateway that deletes successfully. -/
theorem C6_failed_rows_frozen_witness :
    eW6failed ∈
      (processPendingDeletions (fun _ => DeleteResult.ok)
        [eW6failed, eW6pending] 0).2 :=
  C6_failed_rows_frozen (fun _ => DeleteResult.ok) [eW6failed, eW6pending] 0
    eW6failed (by decide) (by decide) (by decide)

/-- C9: the tick is total and exhaustive over the selected batch — for every
gateway oracle (failure results and raised exceptions included) the returned
counts sum to the number of selected due entries, each entry contributing
exactly one of `succeeded`/`failed`/`skipped`; and a raised exception is
converted into a committed update of that same entry, carrying the
exception message as `last_error`. -/
theorem C9_tick_processes_whole_batch (gw : Entry → DeleteResult)
    (store : List Entry) (now : Int) :
    ((processPendingDeletions gw store now).1.succeeded +
      (processPendingDeletions gw store now).1.failed +
      (processPendingDeletions gw store now).1.skipped =
        (dueEntries store now).length) ∧
    (∀ (m : String) (e : Entry) (t : Int), ∃ e',
      (attemptDeletion (DeleteResult.exn m) e t).2 = StoreAction.update e' ∧
      e'.last_error = some m ∧ e'.id = e.id) := by
  constructor
  · have h := foldl_stepEntry_total gw now (dueEntries store now) ⟨0, 0, 0⟩ store
    simpa [processPendingDeletions] using h
  · intro m e t
    by_cases hc : e.max_attempts ≤ e.attempt_count + 1
    · refine ⟨markFailedEntry e (e.attempt_count + 1) m, ?_, rfl, rfl⟩
      simp [attemptDeletion, ge_iff_le, hc]
    · refine ⟨scheduleRetryEntry e (e.attempt_count + 1) t m, ?_, rfl, rfl⟩
      simp [attemptDeletion, ge_iff_le, hc]

/-! ### Claims about the Index Status Reconciler -/

/-- C7: a document `indexing` with no recorded operation handle transitions
to `indexed` (counted `completed`, completion time stamped) in one
reconciler tick exactly when strictly more than 600 seconds have elapsed
since its creation time; at 600 seconds or less the tick leaves the table
and the counts entirely unchanged. -/
theorem C7_fallback_timing (poll : String → OpPoll) (d : Document)
    (t now : Int)
    (h1 : d.index_status = IndexStatus.indexing)
    (h2 : falsyStr d.import_operation_id = true)
    (h3 : d.upload_date = some t) :
    (600 < now - t →
      process_indexing_documents poll [d] now =
        (⟨1, 0, 0⟩,
         [{ d with
             index_status := IndexStatus.indexed
             index_completed_at := some now }])) ∧
    (now - t ≤ 600 →
      process_indexing_documents poll [d] now = (⟨0, 0, 0⟩, [d])) := by
  constructor
  · intro h
    rw [process_indexing_documents_singleton _ _ _ h1]
    simp [stepDoc, h2, h3, h, update_document_index_status]
  · intro h
    rw [process_indexing_documents_singleton _ _ _ h1]
    simp [stepDoc, h2, h3, not_lt.mpr h]

/-- C7, witness: the fallback at 601 elapsed seconds advances the handleless
document; at 599 it does not. -/
theorem C7_fallback_timing_witness :
    process_indexing_documents pollW [dW7] 601 =
      (⟨1, 0, 0⟩,
       [{ dW7 with
           index_status := IndexStatus.indexed
           index_completed_at := some 601 }]) ∧
    process_indexing_documents pollW [dW7] 599 = (⟨0, 0, 0⟩, [dW7]) :=
  ⟨(C7_fallback_timing pollW dW7 0 601 rfl rfl rfl).1 (by decide),
   (C7_fallback_timing pollW dW7 0 599 rfl rfl rfl).2 (by decide)⟩

/-- C8: a poll failure whose message mentions 404 / not-found is reported as
`"indexed"` rather than an error, and a document whose recorded operation
handle produces such a failure advances to `indexed` (counted `completed`)
in one reconciler tick. -/
theorem C8_expired_operation_indexed (poll : String → OpPoll) (d : Document)
    (op m : String) (now : Int)
    (h1 : opNotFoundMsg m = true)
    (h2 : d.index_status = IndexStatus.indexing)
    (h3 : d.import_operation_id = some op)
    (h4 : (op == "") = false)
    (h5 : poll op = OpPoll.pollError m) :
    checkOperationStatus (OpPoll.pollError m) = "indexed" ∧
    process_indexing_documents poll [d] now =
      (⟨1, 0, 0⟩,
       [{ d with
           index_status := IndexStatus.indexed
           index_completed_at := some now }]) := by
  constructor
  · simp [checkOperationStatus, h1]
  · rw [process_indexing_documents_singleton _ _ _ h2]
    simp [stepDoc, falsyStr, h3, h4, h5, checkOperationStatus, h1,
      update_document_index_status]

/-- C8, witness: polling `"op-1"` raises `"operation not found"` and the
document advances to `indexed`. -/
theorem C8_expired_operation_indexed_witness :
    process_indexing_documents pollW8 [dW8] 42 =
      (⟨1, 0, 0⟩,
       [{ dW8 with
           index_status := IndexStatus.indexed
           index_completed_at := some 42 }]) :=
  (C8_expired_operation_indexed pollW8 dW8 "op-1" "operation not found" 42
    (by decide) rfl rfl (by decide) rfl).2

/-- C10: a poll failure other than operation-not-found is reported as
`"indexing"`, so one reconciler tick leaves the document unchanged and
counts it `still_indexing`; and the only poll outcome reported as
`"failed"` is a completed operation carrying a nonempty error message —
never a polling error. -/
theorem C10_poll_error_keeps_indexing (poll : String → OpPoll) (d : Document)
    (op m : String) (now : Int)
    (h1 : opNotFoundMsg m = false)
    (h2 : d.index_status = IndexStatus.indexing)
    (h3 : d.import_operation_id = some op)
    (h4 : (op == "") = false)
    (h5 : poll op = OpPoll.pollError m) :
    checkOperationStatus (OpPoll.pollError m) = "indexing" ∧
    process_indexing_documents poll [d] now = (⟨0, 0, 1⟩, [d]) ∧
    (∀ p, checkOperationStatus p = "failed" →
      ∃ em, p = OpPoll.completed (some em) ∧ em ≠ "") := by
  refine ⟨?_, ?_, ?_⟩
  · simp [checkOperationStatus, h1]
  · rw [process_indexing_documents_singleton _ _ _ h2]
    simp [stepDoc, falsyStr, h3, h4, h5, checkOperationStatus, h1]
  · intro p hp
    cases p with
    | completed em =>
      cases em with
      | none => simp [checkOperationStatus] at hp
      | some s =>
        by_cases hs : s = ""
        · simp [checkOperationStatus, hs] at hp
        · exact ⟨s, rfl, hs⟩
    | running => simp [checkOperationStatus] at hp
    | pollError q =>
      simp only [checkOperationStatus] at hp
      split at hp <;> simp at hp

/-- C10, witness: a deadline-exceeded poll failure leaves the document
`indexing` and the table unchanged. -/
theorem C10_poll_error_keeps_indexing_witness :
    checkOperationStatus (OpPoll.pollError "deadline exceeded") = "indexing" ∧
    process_indexing_documents pollW10 [dW8] 42 = (⟨0, 0, 1⟩, [dW8]) :=
  ⟨(C10_poll_error_keeps_indexing pollW10 dW8 "op-1" "deadline exceeded" 42
      (by decide) rfl rfl (by decide) rfl).1,
   (C10_poll_error_keeps_indexing pollW10 dW8 "op-1" "deadline exceeded" 42
      (by decide) rfl rfl (by decide) rfl).2.1⟩

end DocApi
